import Mathlib

/-!
Verification of the spec of `a-gradient/jupyter-api-rs` against its two
source files, `src/test.py` (Credential Loader + Probe Runner) and
`src/start_jupyterlab.py` (Server Bootstrap).  The Python scripts are
shallowly embedded: pure computations become Lean functions, the side
effects of one run (HTTP GETs, file writes, printed diagnostics) become an
explicit event trace over an explicit filesystem state, and the one
uncaught-exception path becomes an `Option RunError` abort marker.
External library behaviour that the scripts merely call into — Python's
`json.loads` (via `resp.json()`) — is a parameter of the model, while
`json.dump(data, f, indent=2)` is modelled concretely below.
-/

/-- JSON values, as produced by Python's `json` module for the bodies this
script handles.  Numbers are modelled as integers (no probe response in
scope requires float formatting). -/
inductive Json where
  | null : Json
  | bool (b : Bool) : Json
  | num (n : Int) : Json
  | str (s : String) : Json
  | arr (elems : List Json) : Json
  | obj (members : List (String × Json)) : Json

/-- Lower-case hexadecimal digit, as Python's `\uXXXX` escapes use. -/
def hexDigit (n : Nat) : Char :=
  if n < 10 then Char.ofNat (48 + n) else Char.ofNat (87 + n)

/-- String-character escaping of Python's `json.dump` with its default
`ensure_ascii=True`: the two mandatory escapes, the short control escapes,
and `\uXXXX` for remaining control and non-ASCII characters (code points
above `0xFFFF`, which Python encodes as surrogate pairs, are outside the
modelled range). -/
def escapeChar (c : Char) : List Char :=
  if c = '"' then ['\\', '"']
  else if c = '\\' then ['\\', '\\']
  else if c = '\n' then ['\\', 'n']
  else if c = '\t' then ['\\', 't']
  else if c = '\r' then ['\\', 'r']
  else if c = '\x08' then ['\\', 'b']
  else if c = '\x0c' then ['\\', 'f']
  else if c.toNat < 32 || c.toNat > 126 then
    ['\\', 'u', hexDigit (c.toNat / 4096 % 16), hexDigit (c.toNat / 256 % 16),
     hexDigit (c.toNat / 16 % 16), hexDigit (c.toNat % 16)]
  else [c]

/-- A JSON string literal: quotes around the escaped characters. -/
def quoteStr (s : String) : String :=
  String.mk ('"' :: ((s.data.map escapeChar).flatten ++ ['"']))

/-- The newline-plus-indentation separator `json.dump` emits before an
element nested at depth `level` when called with `indent=2`. -/
def nlIndent (level : Nat) : String :=
  String.mk ('\n' :: List.replicate (2 * level) ' ')

mutual

/-- Serialisation of one JSON value at nesting depth `level`, following
Python's `json.dump(data, f, indent=2)` (item separator `","`, key
separator `": "`, empty containers printed inline). -/
def dumpJson : Nat → Json → String
  | _, .null => "null"
  | _, .bool true => "true"
  | _, .bool false => "false"
  | _, .num n => toString n
  | _, .str s => quoteStr s
  | _, .arr [] => "[]"
  | level, .arr (x :: xs) =>
      "[" ++ nlIndent (level + 1) ++ dumpJson (level + 1) x ++
        dumpRestArr (level + 1) xs ++ nlIndent level ++ "]"
  | _, .obj [] => "\x7b\x7d"
  | level, .obj ((k, v) :: kvs) =>
      "\x7b" ++ nlIndent (level + 1) ++ quoteStr k ++ ": " ++ dumpJson (level + 1) v ++
        dumpRestObj (level + 1) kvs ++ nlIndent level ++ "\x7d"

/-- Remaining array elements, each preceded by `","` and fresh indentation. -/
def dumpRestArr : Nat → List Json → String
  | _, [] => ""
  | level, x :: xs => "," ++ nlIndent level ++ dumpJson level x ++ dumpRestArr level xs

/-- Remaining object members, each preceded by `","` and fresh indentation. -/
def dumpRestObj : Nat → List (String × Json) → String
  | _, [] => ""
  | level, (k, v) :: kvs =>
      "," ++ nlIndent level ++ quoteStr k ++ ": " ++ dumpJson level v ++ dumpRestObj level kvs

end

/-- `json.dump(data, f, indent=2)` as called in `try_save` (src/test.py
line 24): the whole document serialised from depth 0. -/
def pyDumpIndent2 (j : Json) : String := dumpJson 0 j

/-- Whitespace characters removed by Python's `str.strip()`, restricted to
the ASCII range the credential file can contain (Unicode space code points
are outside the modelled range). -/
def isPySpace (c : Char) : Bool :=
  c = ' ' || c = '\t' || c = '\n' || c = '\x0b' || c = '\x0c' || c = '\r' ||
    (28 ≤ c.toNat && c.toNat ≤ 31)

/-- Python's `str.strip()`: drop leading and trailing whitespace. -/
def pyStrip (s : String) : String :=
  String.mk (((s.data.dropWhile isPySpace).reverse.dropWhile isPySpace).reverse)

/-- `true` when the string contains no whitespace character at all. -/
def noWhitespace (s : String) : Bool :=
  s.data.all (fun c => !isPySpace c)

/-- First-match association-list lookup: the content of the file at `k`. -/
def lookupFile : List (String × String) → String → Option String
  | [], _ => none
  | (k', v) :: rest, k => if k' = k then some v else lookupFile rest k

/-- Writing file `k` with content `v` in mode `"w"`: an existing entry is
replaced (truncate-and-write), a missing one is created. -/
def setFile : List (String × String) → String → String → List (String × String)
  | [], k, v => [(k, v)]
  | (k', v') :: rest, k, v =>
      if k' = k then (k, v) :: rest else (k', v') :: setFile rest k v

/-- Filesystem state visible to the scripts: the text files by absolute
path, and whether the `samples` output directory exists and is writable
(the one directory condition `open(..., "w")` in `try_save` depends on). -/
structure FS where
  files : List (String × String)
  samplesDirOk : Bool

/-- An HTTP response as `try_save` inspects it: `resp.status_code` and the
body text that `resp.json()` would parse. -/
structure Response where
  status_code : Nat
  body : String

/-- The uncaught Python exceptions of one run: `FileNotFoundError` from
`open(".secret")` (the spec's `MissingCredentialError`), and
`FileNotFoundError`/`OSError` from `open(workspace_dir/"samples/...", "w")`
when the output directory is missing. -/
inductive RunError where
  | missingCredential : RunError
  | fileNotFound : RunError
deriving DecidableEq

/-- Outcome of one `try_save` call that did not raise: the filesystem
afterwards, the write performed (path, content) if any, and the diagnostic
line printed if any. -/
structure TSResult where
  fs : FS
  written : Option (String × String)
  logged : Option String

/-- Output path of a probe: `workspace_dir / f"samples/(filename).json"`
(src/test.py line 23). -/
def samplePath (workspaceDir label : String) : String :=
  workspaceDir ++ "/samples/" ++ label ++ ".json"

/-- `try_save` (src/test.py lines 19-28).  `parse` stands for Python's
`resp.json()` returning either the parsed value or the `JSONDecodeError`
message.  On `status_code == 200` the body is parsed first; a parse
failure is caught and printed, while a failing `open` (missing `samples`
directory) raises `FileNotFoundError`, which no handler catches.  Any
other status prints the status code. -/
def try_save (parse : String → Except String Json) (workspaceDir : String)
    (resp : Response) (filename : String) (fs : FS) : Except RunError TSResult :=
  if resp.status_code = 200 then
    match parse resp.body with
    | .ok data =>
        if fs.samplesDirOk then
          let path := samplePath workspaceDir filename
          let content := pyDumpIndent2 data
          .ok ⟨{ fs with files := setFile fs.files path content }, some (path, content), none⟩
        else .error .fileNotFound
    | .error e => .ok ⟨fs, none, some ("JSON decode error: " ++ e)⟩
  else .ok ⟨fs, none, some ("Error: " ++ toString resp.status_code)⟩

/-- `lab_url` (src/test.py line 9). -/
def lab_url : String := "http://localhost:8888/"

/-- The fixed ordered list iterated at src/test.py line 39. -/
def probeNames : List String :=
  ["sessions", "kernels", "contents", "terminals", "kernelspecs", "status", "me"]

/-- The persistence-loop probes in program order (src/test.py lines
31-41): request URL paired with the output label passed to `try_save`. -/
def probes : List (String × String) :=
  (lab_url ++ "/api/", "[GET]__root") ::
  (lab_url ++ "/lab/api/workspaces", "[GET]lab__workspaces") ::
  probeNames.map (fun i => (lab_url ++ "/api/" ++ i, "[GET]" ++ i))

/-- URL of the initial session-establishing request (src/test.py
line 15). -/
def initialUrl (token : String) : String := lab_url ++ "?token=" ++ token

/-- URL of the byte-range request (src/test.py line 46). -/
def byteRangeUrl (token : String) : String :=
  lab_url ++ "/files/hello.txt?token=" ++ token

/-- `byte_range = range(2)` (src/test.py line 45): start of the range. -/
def byteRangeStart : Nat := 0

/-- `byte_range = range(2)`: its exclusive stop. -/
def byteRangeStop : Nat := 2

/-- The `Range` header value `f"bytes=(start)-(stop - 1)"` (src/test.py
line 47). -/
def rangeHeaderValue : String :=
  "bytes=" ++ toString byteRangeStart ++ "-" ++ toString (byteRangeStop - 1)

/-- One observable side effect of the run: an HTTP GET (with its optional
`Range` header), a file write, or a printed diagnostic line. -/
inductive Event where
  | get (url : String) (hdr : Option String) : Event
  | write (path : String) (content : String) : Event
  | logMsg (msg : String) : Event
deriving DecidableEq

/-- `true` exactly on a path starting with `/`. -/
def isAbsolutePath (p : String) : Bool :=
  match p.data with
  | '/' :: _ => true
  | _ => false

/-- Resolution of a path passed to `open` against the process's current
working directory. -/
def resolvePath (cwd p : String) : String :=
  if isAbsolutePath p then p else cwd ++ "/" ++ p

/-- The Credential Loader (src/test.py lines 10-11):
`open(".secret", "r")` resolves against the current working directory;
the content is returned stripped.  `none` models the `FileNotFoundError`
(or `OSError`) raised when the file is absent or unreadable. -/
def readToken (cwd : String) (fs : FS) : Option String :=
  (lookupFile fs.files (resolvePath cwd ".secret")).map pyStrip

/-- The Server Bootstrap's token write (src/start_jupyterlab.py lines
10-11): `open(workspace_dir/".secret", "w")` followed by
`f.write(app.token)`, where `workspace_dir = Path(__file__).parent` is the
bootstrap script's own directory. -/
def bootstrapWriteToken (scriptDir token : String) (fs : FS) : FS :=
  { fs with files := setFile fs.files (scriptDir ++ "/.secret") token }

/-- Result of running the probe script: the event trace in order, the
final filesystem, and the uncaught exception that aborted the run, if
any. -/
structure RunOutcome where
  events : List Event
  fs : FS
  aborted : Option RunError

/-- The persistence loop over a list of (url, label) probes: GET the url,
call `try_save` on the response, continue with the next probe.  An
uncaught exception from `try_save` aborts the remaining probes. -/
def runProbes (server : String → Response) (parse : String → Except String Json)
    (workspaceDir : String) : List (String × String) → FS → RunOutcome
  | [], fs => ⟨[], fs, none⟩
  | (url, label) :: rest, fs =>
    let resp := server url
    match try_save parse workspaceDir resp label fs with
    | .error err => ⟨[Event.get url none], fs, some err⟩
    | .ok r =>
      let here := Event.get url none ::
        ((match r.written with
          | some pc => [Event.write pc.1 pc.2]
          | none => []) ++
         (match r.logged with
          | some m => [Event.logMsg m]
          | none => []))
      let next := runProbes server parse workspaceDir rest r.fs
      ⟨here ++ next.events, next.fs, next.aborted⟩

/-- The whole of src/test.py, in program order: load the token (lines
10-11, aborting the run when the file is absent), issue the initial
session request (line 15), run the nine persistence-loop probes (lines
31-41), then issue the byte-range request (lines 44-49), which saves
nothing.  `server` maps each requested URL to the response received;
`cwd` is the process working directory and `scriptDir` the directory of
src/test.py (the script's `workspace_dir`). -/
def runScript (cwd scriptDir : String) (fs0 : FS) (server : String → Response)
    (parse : String → Except String Json) : RunOutcome :=
  match readToken cwd fs0 with
  | none => ⟨[], fs0, some .missingCredential⟩
  | some token =>
    let e0 := Event.get (initialUrl token) none
    let pr := runProbes server parse scriptDir probes fs0
    match pr.aborted with
    | some err => ⟨e0 :: pr.events, pr.fs, some err⟩
    | none =>
      ⟨e0 :: pr.events ++ [Event.get (byteRangeUrl token) (some rangeHeaderValue)],
       pr.fs, none⟩

/-- The URLs of the GET requests of a trace, in order. -/
def getUrls (evs : List Event) : List String :=
  evs.filterMap (fun e =>
    match e with
    | .get u _ => some u
    | _ => none)

/-- The GET requests of a trace that carry a `Range` header, with the
header value. -/
def rangedGets (evs : List Event) : List (String × String) :=
  evs.filterMap (fun e =>
    match e with
    | .get u (some h) => some (u, h)
    | _ => none)

/-- The file writes of a trace, in order. -/
def writeEvents (evs : List Event) : List (String × String) :=
  evs.filterMap (fun e =>
    match e with
    | .write p c => some (p, c)
    | _ => none)

/-- The sequence of writes the persistence loop performs, read off the
responses alone: a probe contributes its sample file exactly when the
status is 200 and the body parses. -/
def probeWrites (server : String → Response) (parse : String → Except String Json)
    (workspaceDir : String) : List (String × String) → List (String × String)
  | [] => []
  | (url, label) :: rest =>
    (if (server url).status_code = 200 then
      match parse (server url).body with
      | .ok data => [(samplePath workspaceDir label, pyDumpIndent2 data)]
      | .error _ => []
     else []) ++ probeWrites server parse workspaceDir rest

/-- Sequential application of writes to a file map, earlier writes
first. -/
def applyWrites (m : List (String × String)) : List (String × String) → List (String × String)
  | [] => m
  | (k, v) :: ws => applyWrites (setFile m k v) ws

/-- `true` when the character list contains two adjacent slashes. -/
def hasAdjSlash : List Char → Bool
  | '/' :: '/' :: _ => true
  | _ :: rest => hasAdjSlash rest
  | [] => false

/-- Whether the URL has a double slash between host and path: adjacent
slashes somewhere after the 7-character scheme prefix `http://`, looking
only at the part before the query string. -/
def doubleSlashAfterScheme (u : String) : Bool :=
  hasAdjSlash ((u.data.takeWhile (fun c => !(c = '?'))).drop 7)

/-- `beginsWith needle hay`: `needle` is a prefix of `hay`. -/
def beginsWith : List Char → List Char → Bool
  | [], _ => true
  | _ :: _, [] => false
  | a :: as, b :: bs => a = b && beginsWith as bs

/-- `containsSeq needle hay`: `needle` occurs contiguously in `hay`. -/
def containsSeq (needle : List Char) : List Char → Bool
  | [] => beginsWith needle []
  | c :: cs => beginsWith needle (c :: cs) || containsSeq needle cs

/-- Substring test on strings. -/
def containsSubstr (hay needle : String) : Bool :=
  containsSeq needle.data hay.data

/-! ### Concrete fixtures, used to instantiate the model parameters -/

/-- A concrete stand-in for `resp.json()`: accepts exactly the body
`"null"` and rejects everything else with the message CPython prints for
a non-JSON body. -/
def parseNullOnly : String → Except String Json :=
  fun s =>
    if s = "null" then .ok Json.null
    else .error "Expecting value: line 1 column 1 (char 0)"

/-- A server whose every response is HTTP 200 with body `"null"`. -/
def serverAllNull : String → Response := fun _ => ⟨200, "null"⟩

/-- A server whose every response is HTTP 404 with an empty body. -/
def serverAll404 : String → Response := fun _ => ⟨404, ""⟩

/-- A server whose every response is HTTP 201 with body `"null"`. -/
def serverAll201 : String → Response := fun _ => ⟨201, "null"⟩

/-- Filesystem fixture: token file at `/w/.secret`, samples directory
present. -/
def fsReady : FS := ⟨[("/w/.secret", "tok")], true⟩

/-- Filesystem fixture: token file at `/w/.secret`, samples directory
missing. -/
def fsNoDir : FS := ⟨[("/w/.secret", "tok")], false⟩

/-- Filesystem fixture: no files at all, samples directory present. -/
def fsEmpty : FS := ⟨[], true⟩

/-! ### Helper lemmas -/

theorem lookupFile_setFile (m : List (String × String)) (k v k' : String) :
    lookupFile (setFile m k v) k' = if k = k' then some v else lookupFile m k' := by
  induction m with
  | nil => simp [setFile, lookupFile]
  | cons hd tl ih =>
    obtain ⟨k0, v0⟩ := hd
    by_cases h0 : k0 = k
    · subst h0
      simp [setFile, lookupFile]
      by_cases h1 : k0 = k' <;> simp [h1]
    · simp [setFile, h0, lookupFile]
      by_cases h1 : k0 = k'
      · subst h1
        have : ¬ k = k0 := fun h => h0 h.symm
        simp [this]
      · simp [h1, ih]

theorem lookupFile_setFile_self (m : List (String × String)) (k v : String) :
    lookupFile (setFile m k v) k = some v := by
  simp [lookupFile_setFile]

theorem lookupFile_setFile_ne (m : List (String × String)) (k v k' : String)
    (h : k ≠ k') : lookupFile (setFile m k v) k' = lookupFile m k' := by
  simp [lookupFile_setFile, h]

theorem lookupFile_append (l1 l2 : List (String × String)) (k : String) :
    lookupFile (l1 ++ l2) k = (lookupFile l1 k).or (lookupFile l2 k) := by
  induction l1 with
  | nil => simp [lookupFile]
  | cons hd tl ih =>
    obtain ⟨k0, v0⟩ := hd
    by_cases h0 : k0 = k <;> simp [lookupFile, h0, ih]

theorem dropWhile_eq_self_of_all {p : Char → Bool} {l : List Char}
    (h : l.all (fun c => !p c) = true) : l.dropWhile p = l := by
  cases l with
  | nil => rfl
  | cons a as =>
    simp only [List.all_cons, Bool.and_eq_true, Bool.not_eq_true'] at h
    simp [List.dropWhile_cons, h.1]

theorem pyStrip_of_noWhitespace {t : String} (h : noWhitespace t = true) :
    pyStrip t = t := by
  unfold noWhitespace at h
  unfold pyStrip
  rw [dropWhile_eq_self_of_all h, dropWhile_eq_self_of_all (by rw [List.all_reverse]; exact h),
    List.reverse_reverse]

theorem str_append_cancel_right {a b s : String} (h : a ++ s = b ++ s) : a = b := by
  have hd : a.data ++ s.data = b.data ++ s.data := by
    rw [← String.data_append, ← String.data_append, h]
  exact congrArg String.mk (List.append_cancel_right hd)

theorem append_json_ne_secret (a b : String) : a ++ ".json" ≠ b ++ ".secret" := by
  intro h
  have hd : a.data ++ (".json" : String).data = b.data ++ (".secret" : String).data := by
    rw [← String.data_append, ← String.data_append, h]
  have hr := congrArg List.reverse hd
  rw [List.reverse_append, List.reverse_append] at hr
  have e1 : ((".json" : String).data).reverse = ['n', 'o', 's', 'j', '.'] := rfl
  have e2 : ((".secret" : String).data).reverse = ['t', 'e', 'r', 'c', 'e', 's', '.'] := rfl
  rw [e1, e2] at hr
  simp only [List.cons_append] at hr
  exact absurd (List.head_eq_of_cons_eq hr) (by decide)

theorem try_save_cases (parse : String → Except String Json) (wd : String)
    (resp : Response) (label : String) (fs : FS) (hdir : fs.samplesDirOk = true) :
    (resp.status_code = 200 ∧ ∃ j, parse resp.body = .ok j ∧
        try_save parse wd resp label fs =
          .ok ⟨{ fs with files := setFile fs.files (samplePath wd label) (pyDumpIndent2 j) },
               some (samplePath wd label, pyDumpIndent2 j), none⟩) ∨
    (resp.status_code = 200 ∧ ∃ e, parse resp.body = .error e ∧
        try_save parse wd resp label fs = .ok ⟨fs, none, some ("JSON decode error: " ++ e)⟩) ∨
    (resp.status_code ≠ 200 ∧
        try_save parse wd resp label fs =
          .ok ⟨fs, none, some ("Error: " ++ toString resp.status_code)⟩) := by
  unfold try_save
  by_cases hs : resp.status_code = 200
  · cases hp : parse resp.body with
    | ok j => exact Or.inl ⟨hs, j, rfl, by simp [hs, hp, hdir]⟩
    | error e => exact Or.inr (Or.inl ⟨hs, e, rfl, by simp [hs, hp]⟩)
  · exact Or.inr (Or.inr ⟨hs, by simp [hs]⟩)

theorem try_save_ok (parse : String → Except String Json) (wd : String)
    (resp : Response) (label : String) (fs : FS) (hdir : fs.samplesDirOk = true) :
    ∃ r, try_save parse wd resp label fs = .ok r ∧ r.fs.samplesDirOk = true := by
  rcases try_save_cases parse wd resp label fs hdir with
    ⟨_, j, _, he⟩ | ⟨_, e, _, he⟩ | ⟨_, he⟩
  · exact ⟨_, he, hdir⟩
  · exact ⟨_, he, hdir⟩
  · exact ⟨_, he, hdir⟩

theorem runProbes_no_abort (server : String → Response)
    (parse : String → Except String Json) (wd : String) :
    ∀ (ps : List (String × String)) (fs : FS), fs.samplesDirOk = true →
      (runProbes server parse wd ps fs).aborted = none ∧
      (runProbes server parse wd ps fs).fs.samplesDirOk = true := by
  intro ps
  induction ps with
  | nil => intro fs hdir; exact ⟨rfl, hdir⟩
  | cons hd rest ih =>
    intro fs hdir
    obtain ⟨url, label⟩ := hd
    obtain ⟨r, hr, hrdir⟩ := try_save_ok parse wd (server url) label fs hdir
    have := ih r.fs hrdir
    simp [runProbes, hr, this.1, this.2]

theorem runProbes_urls (server : String → Response)
    (parse : String → Except String Json) (wd : String) :
    ∀ (ps : List (String × String)) (fs : FS), fs.samplesDirOk = true →
      getUrls (runProbes server parse wd ps fs).events = ps.map Prod.fst := by
  intro ps
  induction ps with
  | nil => intro fs _; rfl
  | cons hd rest ih =>
    intro fs hdir
    obtain ⟨url, label⟩ := hd
    obtain ⟨r, hr, hrdir⟩ := try_save_ok parse wd (server url) label fs hdir
    simp only [runProbes, hr]
    simp only [getUrls, List.filterMap_cons, List.filterMap_append] at *
    cases r.written <;> cases r.logged <;>
      simp [List.filterMap_cons, ih r.fs hrdir, getUrls]

theorem runProbes_ranged (server : String → Response)
    (parse : String → Except String Json) (wd : String) :
    ∀ (ps : List (String × String)) (fs : FS),
      rangedGets (runProbes server parse wd ps fs).events = [] := by
  intro ps
  induction ps with
  | nil => intro fs; rfl
  | cons hd rest ih =>
    intro fs
    obtain ⟨url, label⟩ := hd
    cases hr : try_save parse wd (server url) label fs with
    | error err => simp [runProbes, hr, rangedGets]
    | ok r =>
      simp only [runProbes, hr]
      have hrest := ih r.fs
      cases r.written <;> cases r.logged <;>
        simpa [rangedGets, List.filterMap_cons, List.filterMap_append] using hrest

theorem lookupFile_applyWrites (ws : List (String × String)) :
    ∀ (m : List (String × String)) (k : String),
      lookupFile (applyWrites m ws) k = (lookupFile ws.reverse k).or (lookupFile m k) := by
  induction ws with
  | nil => intro m k; simp [applyWrites, lookupFile]
  | cons w ws ih =>
    intro m k
    obtain ⟨k1, v1⟩ := w
    simp only [applyWrites]
    rw [ih, List.reverse_cons, lookupFile_append, lookupFile_setFile]
    cases lookupFile ws.reverse k <;> by_cases h1 : k1 = k <;> simp [lookupFile, h1]

theorem lookupFile_applyWrites_twice (m ws : List (String × String)) (k : String) :
    lookupFile (applyWrites (applyWrites m ws) ws) k =
      lookupFile (applyWrites m ws) k := by
  rw [lookupFile_applyWrites, lookupFile_applyWrites]
  cases lookupFile ws.reverse k <;> simp

theorem lookupFile_eq_none_of_no_key (l : List (String × String)) (k : String)
    (h : ∀ w ∈ l, w.1 ≠ k) : lookupFile l k = none := by
  induction l with
  | nil => rfl
  | cons w rest ih =>
    obtain ⟨k0, v0⟩ := w
    have hne : k0 ≠ k := h (k0, v0) (List.mem_cons_self ..)
    simp only [lookupFile, hne, if_false]
    exact ih (fun w hw => h w (List.mem_cons_of_mem _ hw))

theorem lookupFile_applyWrites_of_no_key (ws m : List (String × String)) (k : String)
    (h : ∀ w ∈ ws, w.1 ≠ k) : lookupFile (applyWrites m ws) k = lookupFile m k := by
  rw [lookupFile_applyWrites]
  rw [lookupFile_eq_none_of_no_key ws.reverse k
    (fun w hw => h w (List.mem_reverse.mp hw))]
  rfl

theorem probeWrites_keys (server : String → Response)
    (parse : String → Except String Json) (wd : String) :
    ∀ (ps : List (String × String)), ∀ w ∈ probeWrites server parse wd ps,
      ∃ label, w.1 = samplePath wd label := by
  intro ps
  induction ps with
  | nil => intro w hw; simp [probeWrites] at hw
  | cons hd rest ih =>
    intro w hw
    obtain ⟨url, label⟩ := hd
    simp only [probeWrites, List.mem_append] at hw
    rcases hw with h | h
    · revert h
      split
      · split
        · intro h
          simp only [List.mem_singleton] at h
          exact ⟨label, by rw [h]⟩
        · intro h; simp at h
      · intro h; simp at h
    · exact ih w h

theorem runProbes_files (server : String → Response)
    (parse : String → Except String Json) (wd : String) :
    ∀ (ps : List (String × String)) (fs : FS), fs.samplesDirOk = true →
      (runProbes server parse wd ps fs).fs.files =
        applyWrites fs.files (probeWrites server parse wd ps) := by
  intro ps
  induction ps with
  | nil => intro fs _; rfl
  | cons hd rest ih =>
    intro fs hdir
    obtain ⟨url, label⟩ := hd
    rcases try_save_cases parse wd (server url) label fs hdir with
      ⟨hs, j, hp, he⟩ | ⟨hs, e, hp, he⟩ | ⟨hs, he⟩
    · simp only [runProbes, he]
      rw [ih { fs with files := setFile fs.files (samplePath wd label) (pyDumpIndent2 j) } hdir]
      simp [probeWrites, hs, hp, applyWrites]
    · simp only [runProbes, he]
      rw [ih fs hdir]
      simp [probeWrites, hs, hp]
    · simp only [runProbes, he]
      rw [ih fs hdir]
      simp [probeWrites, hs]

theorem runScript_eq (cwd sd : String) (fs : FS) (server : String → Response)
    (parse : String → Except String Json) (c : String)
    (htok : lookupFile fs.files (resolvePath cwd ".secret") = some c)
    (hdir : fs.samplesDirOk = true) :
    runScript cwd sd fs server parse =
      ⟨Event.get (initialUrl (pyStrip c)) none ::
         (runProbes server parse sd probes fs).events ++
         [Event.get (byteRangeUrl (pyStrip c)) (some rangeHeaderValue)],
       (runProbes server parse sd probes fs).fs, none⟩ := by
  have hrt : readToken cwd fs = some (pyStrip c) := by simp [readToken, htok]
  have hab := (runProbes_no_abort server parse sd probes fs hdir).1
  simp only [runScript, hrt, hab]

theorem runScript_urls (cwd sd : String) (fs : FS) (server : String → Response)
    (parse : String → Except String Json) (c : String)
    (htok : lookupFile fs.files (resolvePath cwd ".secret") = some c)
    (hdir : fs.samplesDirOk = true) :
    getUrls (runScript cwd sd fs server parse).events =
      initialUrl (pyStrip c) :: probes.map Prod.fst ++ [byteRangeUrl (pyStrip c)] := by
  rw [runScript_eq cwd sd fs server parse c htok hdir]
  have hurls := runProbes_urls server parse sd probes fs hdir
  simp only [getUrls] at hurls ⊢
  simp [List.filterMap_cons, List.filterMap_append, hurls]

/-! ### Claim theorems -/

/-- C1 (amended): for every response processed by the persistence step
(with the output directory present), a file is written if and only if the
HTTP status is exactly 200 and the body parses as JSON; on a non-200
status the status code is reported and no file is written; on a 200
status with an unparseable body a decode failure including the parse
error is reported and no file is written; in the successful case the file
holds the parsed structure pretty-printed with 2-space indentation at the
probe's label with a `.json` extension. -/
theorem C1_persistence_policy (parse : String → Except String Json) (wd : String)
    (resp : Response) (label : String) (fs : FS) (hdir : fs.samplesDirOk = true) :
    ∃ r, try_save parse wd resp label fs = .ok r ∧
      ((∃ pc, r.written = some pc) ↔
        resp.status_code = 200 ∧ ∃ j, parse resp.body = .ok j) ∧
      (resp.status_code ≠ 200 →
        r = ⟨fs, none, some ("Error: " ++ toString resp.status_code)⟩) ∧
      (∀ e, resp.status_code = 200 → parse resp.body = .error e →
        r = ⟨fs, none, some ("JSON decode error: " ++ e)⟩) ∧
      (∀ j, resp.status_code = 200 → parse resp.body = .ok j →
        r = ⟨{ fs with files := setFile fs.files (samplePath wd label) (pyDumpIndent2 j) },
             some (samplePath wd label, pyDumpIndent2 j), none⟩) := by
  rcases try_save_cases parse wd resp label fs hdir with
    ⟨hs, j, hp, he⟩ | ⟨hs, e, hp, he⟩ | ⟨hs, he⟩
  · refine ⟨_, he, ?_, ?_, ?_, ?_⟩
    · exact ⟨fun _ => ⟨hs, j, hp⟩, fun _ => ⟨_, rfl⟩⟩
    · intro h; exact absurd hs h
    · intro e _ hp'; rw [hp] at hp'; cases hp'
    · intro j' _ hp'
      have hj := hp.symm.trans hp'
      injection hj with hj
      rw [hj]
  · refine ⟨_, he, ?_, ?_, ?_, ?_⟩
    · constructor
      · rintro ⟨pc, hpc⟩; cases hpc
      · rintro ⟨_, j', hp'⟩; rw [hp] at hp'; cases hp'
    · intro h; exact absurd hs h
    · intro e' _ hp'
      have he' := hp.symm.trans hp'
      injection he' with he'
      rw [he']
    · intro j' _ hp'; rw [hp] at hp'; cases hp'
  · refine ⟨_, he, ?_, ?_, ?_, ?_⟩
    · constructor
      · rintro ⟨pc, hpc⟩; cases hpc
      · rintro ⟨hs', _⟩; exact absurd hs' hs
    · intro _; rfl
    · intro e _ _; exact absurd ‹resp.status_code = 200› hs
    · intro j hs' _; exact absurd hs' hs

/-- C1 counterexample: HTTP 201 lies in the HTTP success range and the
body `"null"` parses as JSON, yet `try_save` writes no file and reports
`Error: 201` — so "status indicates success" (the 2xx range) is not the
condition the code tests; only status 200 exactly triggers a write. -/
theorem C1_counterexample :
    200 ≤ 201 ∧ 201 < 300 ∧ parseNullOnly "null" = .ok Json.null ∧
    try_save parseNullOnly "/w" ⟨201, "null"⟩ "[GET]__root" fsReady =
      .ok ⟨fsReady, none, some "Error: 201"⟩ :=
  ⟨by decide, by decide, rfl, rfl⟩

/-- C1 witness: the amended theorem applied to a concrete 404 response. -/
theorem C1_witness :
    try_save parseNullOnly "/w" ⟨404, ""⟩ "[GET]sessions" fsReady =
      .ok ⟨fsReady, none, some "Error: 404"⟩ := by
  obtain ⟨r, he, _, hnot, _, _⟩ :=
    C1_persistence_policy parseNullOnly "/w" ⟨404, ""⟩ "[GET]sessions" fsReady rfl
  rw [he, hnot (by decide)]
  rfl

/-- C2 counterexample: the first persistence-loop request issued after
the client is constructed — the root info probe — goes to
`http://localhost:8888//api/`, a URL that carries no `token` query
parameter at all. -/
theorem C2_counterexample :
    (runScript "/w" "/w" fsReady serverAllNull parseNullOnly).events[1]? =
      some (Event.get "http://localhost:8888//api/" none) ∧
    containsSubstr "http://localhost:8888//api/" "token=" = false :=
  ⟨rfl, rfl⟩

/-- C2 (amended): the token travels as a `?token=` query parameter only
on the initial session-establishing request and on the byte-range
request; none of the nine persistence-loop probe URLs (root info,
workspaces, and the seven `/api/name` probes) carries a `token`
parameter — those requests rely on the cookies the session stored from
the initial request. -/
theorem C2_token_attachment (token : String) :
    containsSubstr (initialUrl token) "?token=" = true ∧
    containsSubstr (byteRangeUrl token) "?token=" = true ∧
    (probes.map Prod.fst).all (fun u => !containsSubstr u "token=") = true :=
  ⟨rfl, rfl, rfl⟩

/-- C3 counterexample: with the `samples` output directory missing, a 200
response with a JSON body makes `try_save` raise `FileNotFoundError`
(only `json.JSONDecodeError` is caught), and at run level this aborts the
remaining probes: the trace stops after 2 GET events instead of 11. -/
theorem C3_counterexample :
    try_save parseNullOnly "/w" ⟨200, "null"⟩ "[GET]__root" fsNoDir =
      .error RunError.fileNotFound ∧
    (runScript "/w" "/w" fsNoDir serverAllNull parseNullOnly).aborted =
      some RunError.fileNotFound ∧
    (runScript "/w" "/w" fsNoDir serverAllNull parseNullOnly).events.length = 2 :=
  ⟨rfl, rfl, rfl⟩

/-- C3 (amended): provided the `samples` output directory exists and is
writable, the persistence step raises no exception for any response
(status and body arbitrary), and a full run with the credential file
present aborts nowhere — every probe executes and all eleven GET
requests are issued. -/
theorem C3_isolation (parse : String → Except String Json) (wd cwd : String)
    (resp : Response) (label : String) (fs : FS) (server : String → Response)
    (c : String) (hdir : fs.samplesDirOk = true)
    (htok : lookupFile fs.files (resolvePath cwd ".secret") = some c) :
    (∃ r, try_save parse wd resp label fs = Except.ok r) ∧
    (runScript cwd wd fs server parse).aborted = none ∧
    (getUrls (runScript cwd wd fs server parse).events).length = 11 := by
  refine ⟨?_, ?_, ?_⟩
  · obtain ⟨r, hr, _⟩ := try_save_ok parse wd resp label fs hdir
    exact ⟨r, hr⟩
  · rw [runScript_eq cwd wd fs server parse c htok hdir]
  · rw [runScript_urls cwd wd fs server parse c htok hdir]
    rfl

/-- C3 witness: the amended theorem applied to a concrete all-404 server
and a ready filesystem. -/
theorem C3_witness :
    (∃ r, try_save parseNullOnly "/w" ⟨500, "x"⟩ "[GET]me" fsReady = Except.ok r) ∧
    (runScript "/w" "/w" fsReady serverAll404 parseNullOnly).aborted = none ∧
    (getUrls (runScript "/w" "/w" fsReady serverAll404 parseNullOnly).events).length = 11 :=
  C3_isolation parseNullOnly "/w" "/w" ⟨500, "x"⟩ "[GET]me" fsReady serverAll404 "tok"
    rfl rfl

/-- C4: with the credential present and the output directory in place,
the run issues its GET requests in exactly this order — the initial
session request, the server root info endpoint, the workspaces listing,
then one request per name in (sessions, kernels, contents, terminals,
kernelspecs, status, me) to `lab_url ++ "/api/" ++ name`, and finally the
byte-range request — and the nine persistence probes are labelled by
their sanitized method-and-route names. -/
theorem C4_probe_order (cwd sd : String) (fs : FS) (server : String → Response)
    (parse : String → Except String Json) (c : String)
    (htok : lookupFile fs.files (resolvePath cwd ".secret") = some c)
    (hdir : fs.samplesDirOk = true) :
    getUrls (runScript cwd sd fs server parse).events =
      initialUrl (pyStrip c) ::
        "http://localhost:8888//api/" :: "http://localhost:8888//lab/api/workspaces" ::
        "http://localhost:8888//api/sessions" :: "http://localhost:8888//api/kernels" ::
        "http://localhost:8888//api/contents" :: "http://localhost:8888//api/terminals" ::
        "http://localhost:8888//api/kernelspecs" :: "http://localhost:8888//api/status" ::
        "http://localhost:8888//api/me" :: [byteRangeUrl (pyStrip c)] ∧
    probes.map Prod.snd =
      ["[GET]__root", "[GET]lab__workspaces", "[GET]sessions", "[GET]kernels",
       "[GET]contents", "[GET]terminals", "[GET]kernelspecs", "[GET]status",
       "[GET]me"] := by
  refine ⟨?_, rfl⟩
  rw [runScript_urls cwd sd fs server parse c htok hdir]
  rfl

/-- C4 witness: the order theorem applied to a concrete run. -/
theorem C4_witness :
    getUrls (runScript "/w" "/w" fsReady serverAllNull parseNullOnly).events =
      initialUrl "tok" ::
        "http://localhost:8888//api/" :: "http://localhost:8888//lab/api/workspaces" ::
        "http://localhost:8888//api/sessions" :: "http://localhost:8888//api/kernels" ::
        "http://localhost:8888//api/contents" :: "http://localhost:8888//api/terminals" ::
        "http://localhost:8888//api/kernelspecs" :: "http://localhost:8888//api/status" ::
        "http://localhost:8888//api/me" :: [byteRangeUrl "tok"] ∧
    probes.map Prod.snd =
      ["[GET]__root", "[GET]lab__workspaces", "[GET]sessions", "[GET]kernels",
       "[GET]contents", "[GET]terminals", "[GET]kernelspecs", "[GET]status",
       "[GET]me"] :=
  C4_probe_order "/w" "/w" fsReady serverAllNull parseNullOnly "tok" rfl rfl

/-- C5: the Credential Loader returns exactly the stripped file content
whenever that is non-empty, and writing a whitespace-free string to the
credential file and loading it back yields that same string. -/
theorem C5_loader_roundtrip :
    (∀ (fs : FS) (cwd c s : String),
      lookupFile fs.files (resolvePath cwd ".secret") = some c →
      pyStrip c = s → s ≠ "" →
      readToken cwd fs = some s) ∧
    (∀ (fs : FS) (cwd t : String), noWhitespace t = true →
      readToken cwd
        { fs with files := setFile fs.files (resolvePath cwd ".secret") t } =
        some t) := by
  constructor
  · intro fs cwd c s hc hstrip _
    simp [readToken, hc, hstrip]
  · intro fs cwd t ht
    simp [readToken, lookupFile_setFile_self, pyStrip_of_noWhitespace ht]

/-- C5 witness: a concrete load and a concrete write-then-load. -/
theorem C5_witness :
    readToken "/w" fsReady = some "tok" ∧
    readToken "/w"
      { fsEmpty with
        files := setFile fsEmpty.files (resolvePath "/w" ".secret") "abc123" } =
      some "abc123" :=
  ⟨C5_loader_roundtrip.1 fsReady "/w" "tok" "tok" rfl rfl (by decide),
   C5_loader_roundtrip.2 fsEmpty "/w" "abc123" (by decide)⟩

/-- C6: when the credential file is absent (or unreadable — both appear
to the model as an unreadable path), the run aborts with the missing
credential failure, with an empty event trace — no HTTP request issued —
and an unchanged filesystem — no output file written. -/
theorem C6_missing_credential (cwd sd : String) (fs : FS)
    (server : String → Response) (parse : String → Except String Json)
    (h : lookupFile fs.files (resolvePath cwd ".secret") = none) :
    runScript cwd sd fs server parse = ⟨[], fs, some RunError.missingCredential⟩ := by
  have hrt : readToken cwd fs = none := by simp [readToken, h]
  simp [runScript, hrt]

/-- C6 witness: a run over an empty filesystem aborts before anything
happens. -/
theorem C6_witness :
    runScript "/w" "/w" fsEmpty serverAllNull parseNullOnly =
      ⟨[], fsEmpty, some RunError.missingCredential⟩ :=
  C6_missing_credential "/w" "/w" fsEmpty serverAllNull parseNullOnly rfl

/-- C7: the run contains exactly one GET with a `Range` header; it
requests the static file `/files/hello.txt` with `bytes=0-1` (the first
two bytes), it is the last event of the run — nothing, in particular no
file write, follows it — and the filesystem after the full run is the
one the persistence loop produced, so the byte-range step writes no
output file regardless of the response. -/
theorem C7_byte_range (cwd sd : String) (fs : FS) (server : String → Response)
    (parse : String → Except String Json) (c : String)
    (htok : lookupFile fs.files (resolvePath cwd ".secret") = some c)
    (hdir : fs.samplesDirOk = true) :
    rangeHeaderValue = "bytes=0-1" ∧
    rangedGets (runScript cwd sd fs server parse).events =
      [(byteRangeUrl (pyStrip c), "bytes=0-1")] ∧
    (runScript cwd sd fs server parse).events.getLast? =
      some (Event.get (byteRangeUrl (pyStrip c)) (some rangeHeaderValue)) ∧
    (runScript cwd sd fs server parse).fs = (runProbes server parse sd probes fs).fs := by
  refine ⟨rfl, ?_, ?_, ?_⟩
  · rw [runScript_eq cwd sd fs server parse c htok hdir]
    have hpr := runProbes_ranged server parse sd probes fs
    simp only [rangedGets] at hpr ⊢
    simp [List.filterMap_cons, List.filterMap_append, hpr]
    rfl
  · rw [runScript_eq cwd sd fs server parse c htok hdir]
    show ((Event.get (initialUrl (pyStrip c)) none ::
        (runProbes server parse sd probes fs).events) ++
        [Event.get (byteRangeUrl (pyStrip c)) (some rangeHeaderValue)]).getLast? =
      some (Event.get (byteRangeUrl (pyStrip c)) (some rangeHeaderValue))
    exact List.getLast?_concat _
  · rw [runScript_eq cwd sd fs server parse c htok hdir]

/-- C7 witness: the byte-range facts on a concrete run. -/
theorem C7_witness :
    rangeHeaderValue = "bytes=0-1" ∧
    rangedGets (runScript "/w" "/w" fsReady serverAllNull parseNullOnly).events =
      [(byteRangeUrl "tok", "bytes=0-1")] ∧
    (runScript "/w" "/w" fsReady serverAllNull parseNullOnly).events.getLast? =
      some (Event.get (byteRangeUrl "tok") (some rangeHeaderValue)) ∧
    (runScript "/w" "/w" fsReady serverAllNull parseNullOnly).fs =
      (runProbes serverAllNull parseNullOnly "/w" probes fsReady).fs :=
  C7_byte_range "/w" "/w" fsReady serverAllNull parseNullOnly "tok" rfl rfl

/-- C8: running the full probe sequence twice against a server that
returns identical responses (the same `server` function) produces
byte-identical output files — after the second run every file has exactly
the content it had after the first run, because each probe's write is a
function of its response alone and mode `"w"` overwrites rather than
appends. -/
theorem C8_idempotence (cwd sd : String) (fs : FS) (server : String → Response)
    (parse : String → Except String Json) (c : String)
    (htok : lookupFile fs.files (resolvePath cwd ".secret") = some c)
    (hdir : fs.samplesDirOk = true) (k : String) :
    lookupFile
      (runScript cwd sd (runScript cwd sd fs server parse).fs server parse).fs.files k =
    lookupFile (runScript cwd sd fs server parse).fs.files k := by
  have h1 := runScript_eq cwd sd fs server parse c htok hdir
  have hfiles1 : (runScript cwd sd fs server parse).fs.files =
      applyWrites fs.files (probeWrites server parse sd probes) := by
    rw [h1]
    exact runProbes_files server parse sd probes fs hdir
  have hdir1 : (runScript cwd sd fs server parse).fs.samplesDirOk = true := by
    rw [h1]
    exact (runProbes_no_abort server parse sd probes fs hdir).2
  have hkeys : ∀ w ∈ probeWrites server parse sd probes,
      w.1 ≠ resolvePath cwd ".secret" := by
    intro w hw
    obtain ⟨label, hl⟩ := probeWrites_keys server parse sd probes w hw
    rw [hl]
    show samplePath sd label ≠ resolvePath cwd ".secret"
    have hres : resolvePath cwd ".secret" = (cwd ++ "/") ++ ".secret" := rfl
    rw [hres]
    exact append_json_ne_secret ((sd ++ "/samples/") ++ label) (cwd ++ "/")
  have htok1 : lookupFile (runScript cwd sd fs server parse).fs.files
      (resolvePath cwd ".secret") = some c := by
    rw [hfiles1, lookupFile_applyWrites_of_no_key _ _ _ hkeys]
    exact htok
  have h2 := runScript_eq cwd sd (runScript cwd sd fs server parse).fs server parse c
    htok1 hdir1
  have hfiles2 :
      (runScript cwd sd (runScript cwd sd fs server parse).fs server parse).fs.files =
      applyWrites (runScript cwd sd fs server parse).fs.files
        (probeWrites server parse sd probes) := by
    rw [h2]
    exact runProbes_files server parse sd probes _ hdir1
  rw [hfiles2, hfiles1, lookupFile_applyWrites_twice]

/-- C8 witness: idempotence observed at a concrete written sample file. -/
theorem C8_witness :
    lookupFile
      (runScript "/w" "/w" (runScript "/w" "/w" fsReady serverAllNull parseNullOnly).fs
        serverAllNull parseNullOnly).fs.files (samplePath "/w" "[GET]sessions") =
    lookupFile (runScript "/w" "/w" fsReady serverAllNull parseNullOnly).fs.files
      (samplePath "/w" "[GET]sessions") :=
  C8_idempotence "/w" "/w" fsReady serverAllNull parseNullOnly "tok" rfl rfl
    (samplePath "/w" "[GET]sessions")

/-- C9: the bootstrap writes the token to `.secret` under its own script
directory, the probe script reads `.secret` resolved against the current
working directory, and the write-then-load round trip returns the token
exactly when the working directory is the script directory (on a
filesystem holding nothing else, any other working directory finds no
credential at all). -/
theorem C9_secret_path (sd cwd t : String) (fs : FS) :
    (bootstrapWriteToken sd t fs).files = setFile fs.files (sd ++ "/.secret") t ∧
    (cwd = sd → noWhitespace t = true →
      readToken cwd (bootstrapWriteToken sd t fs) = some t) ∧
    (cwd ≠ sd → readToken cwd (bootstrapWriteToken sd t ⟨[], true⟩) = none) := by
  refine ⟨rfl, ?_, ?_⟩
  · intro hcwd ht
    subst hcwd
    have hpath : resolvePath cwd ".secret" = cwd ++ "/.secret" := by
      show cwd ++ "/" ++ ".secret" = cwd ++ "/.secret"
      rw [String.append_assoc]
      exact congrArg (fun s => cwd ++ s) (by decide)
    simp [readToken, bootstrapWriteToken, hpath, lookupFile_setFile_self,
      pyStrip_of_noWhitespace ht]
  · intro hne
    have hpath : resolvePath cwd ".secret" = (cwd ++ "/") ++ ".secret" := rfl
    simp only [readToken, bootstrapWriteToken, hpath]
    rw [lookupFile_setFile_ne]
    · rfl
    · intro h
      have h2 : (sd ++ "/") ++ ".secret" = (cwd ++ "/") ++ ".secret" := by
        rw [String.append_assoc]
        exact h
      exact hne (str_append_cancel_right (str_append_cancel_right h2)).symm

/-- C9 witness: the round trip succeeds when the working directory is the
script directory and finds nothing when it is not. -/
theorem C9_witness :
    readToken "/a" (bootstrapWriteToken "/a" "tok" fsEmpty) = some "tok" ∧
    readToken "/b" (bootstrapWriteToken "/a" "tok" ⟨[], true⟩) = none :=
  ⟨(C9_secret_path "/a" "/a" "tok" fsEmpty).2.1 rfl (by decide),
   (C9_secret_path "/a" "/b" "tok" ⟨[], true⟩).2.2 (by decide)⟩

/-- C10 counterexample: the byte-range request does NOT avoid the double
slash — `lab_url` ends with a slash and the byte-range route adds
another, so its URL reads `http://localhost:8888//files/...`. -/
theorem C10_counterexample :
    byteRangeUrl "tok" = "http://localhost:8888//files/hello.txt?token=tok" ∧
    doubleSlashAfterScheme (byteRangeUrl "tok") = true :=
  ⟨rfl, rfl⟩

/-- C10 (amended): every URL of the nine persistence-loop probes AND the
byte-range request carries a double slash between host and path; only
the initial root request avoids it. -/
theorem C10_double_slash (token : String) :
    (probes.map Prod.fst).all doubleSlashAfterScheme = true ∧
    doubleSlashAfterScheme (byteRangeUrl token) = true ∧
    doubleSlashAfterScheme (initialUrl token) = false :=
  ⟨rfl, rfl, rfl⟩

/- Sanity check that the serialiser model reproduces CPython's
`json.dumps(data, indent=2)` output shape on a nested document. -/
example :
    pyDumpIndent2 (Json.obj
      [("a", Json.num 1), ("b", Json.arr [Json.bool true, Json.null]),
       ("c", Json.obj []), ("d", Json.str "x")]) =
    "\x7b\n  \"a\": 1,\n  \"b\": [\n    true,\n    null\n  ],\n  \"c\": \x7b\x7d,\n  \"d\": \"x\"\n\x7d" :=
  rfl
